import Mathlib

/-!
Verification of the filtering, aggregation and question-answering logic of
the sales-dashboard application (src/dsa.py) against its specification.

The embedding below translates the two Dash callbacks (update_dashboard and
analyze_data_view) into pure Lean functions over an explicit record model.
Conventions of the embedding:
* a cleaned dataframe row becomes a Record; the Date column is kept as its
  already-formatted YYYY-MM-DD string (the loader guarantees every retained
  row has a valid date), Amount becomes an exact rational number;
* a missing Dash multi-select value (None) and an empty selection are both
  modelled as the empty list, matching Python truthiness of the source
  checks such as "if selected_categories:";
* Python exceptions are modelled with the Except monad; the only operation
  of the analysis path that can raise is the evaluation of the malformed
  f-string format specifier in the entity-metric branch, plus a guarded
  division, both made explicit below.
-/

/-- One cleaned transaction row, after the loading and cleaning step. -/
structure Record where
  date : String
  month : String
  category : String
  ship_state : String
  ship_city : String
  status : String
  amount : ℚ
  order_id : String
deriving DecidableEq

/-- Python-side exceptions that the modelled code can raise. -/
inductive PyErr where
  | valueError : PyErr
  | zeroDivisionError : PyErr
deriving DecidableEq

/-- Filtering as performed by the dashboard callback (src/dsa.py lines
188-195): three sequential, individually guarded isin-filters. -/
def update_dashboard_filter (selected_categories selected_states selected_statuses : List String)
    (df : List Record) : List Record :=
  let dff := df
  let dff := bif !selected_categories.isEmpty then
    dff.filter (fun r => selected_categories.contains r.category) else dff
  let dff := bif !selected_states.isEmpty then
    dff.filter (fun r => selected_states.contains r.ship_state) else dff
  bif !selected_statuses.isEmpty then
    dff.filter (fun r => selected_statuses.contains r.status) else dff

/-- Filtering as re-derived by the question callback (src/dsa.py lines
278-287): the same three guarded filters, wrapped in one outer guard. -/
def analyze_filter (selected_categories selected_states selected_statuses : List String)
    (df : List Record) : List Record :=
  bif !selected_categories.isEmpty || !selected_states.isEmpty || !selected_statuses.isEmpty then
    let dff := df
    let dff := bif !selected_categories.isEmpty then
      dff.filter (fun r => selected_categories.contains r.category) else dff
    let dff := bif !selected_states.isEmpty then
      dff.filter (fun r => selected_states.contains r.ship_state) else dff
    bif !selected_statuses.isEmpty then
      dff.filter (fun r => selected_statuses.contains r.status) else dff
  else df

/-- The data-scope description used in chatbot responses (src/dsa.py lines
280-284). -/
def filter_desc_of (selected_categories selected_states selected_statuses : List String) : String :=
  bif !selected_categories.isEmpty || !selected_states.isEmpty || !selected_statuses.isEmpty then
    "current filtered view"
  else "overall data"

/-- The dashboard filter in single-predicate normal form. -/
theorem dashboard_filter_eq_filter (c s t : List String) (df : List Record) :
    update_dashboard_filter c s t df =
      df.filter (fun r => (c.isEmpty || c.contains r.category)
        && (s.isEmpty || s.contains r.ship_state)
        && (t.isEmpty || t.contains r.status)) := by
  unfold update_dashboard_filter
  cases hc : c.isEmpty <;> cases hs : s.isEmpty <;> cases ht : t.isEmpty <;>
    simp [hc, hs, ht, List.filter_filter, Bool.and_comm, Bool.and_left_comm, Bool.and_assoc]

/-- The two filter paths coincide. -/
theorem analyze_filter_eq_dashboard (c s t : List String) (df : List Record) :
    analyze_filter c s t df = update_dashboard_filter c s t df := by
  unfold analyze_filter update_dashboard_filter
  cases hc : c.isEmpty <;> cases hs : s.isEmpty <;> cases ht : t.isEmpty <;>
    simp [hc, hs, ht]

/-- C1: for every FilterSpec (selected categories, states, statuses) and
every dataset, the filtered view computed by the dashboard callback equals
the filtered view re-derived by the question callback, so answers and
charts for the same filter state are computed over the same records. -/
theorem C1_filter_paths_agree (c s t : List String) (df : List Record) :
    update_dashboard_filter c s t df = analyze_filter c s t df :=
  (analyze_filter_eq_dashboard c s t df).symm

/-- C9: applying the empty FilterSpec (no categories, no states, no
statuses selected) yields a view with the same record count as the
dataset, on both code paths. -/
theorem C9_empty_spec_identity (df : List Record) :
    (update_dashboard_filter [] [] [] df).length = df.length
      ∧ (analyze_filter [] [] [] df).length = df.length := by
  constructor <;> simp [update_dashboard_filter, analyze_filter]

/-- C4: a record of the dataset is in the filtered view iff each of the
three selection sets is empty or contains the corresponding field; the
filtered view is a subsequence of the dataset (relative order preserved),
and applying the same FilterSpec twice yields the same view (the function
is deterministic, and moreover idempotent). -/
theorem C4_filter_semantics (c s t : List String) (df : List Record) :
    (∀ r ∈ df, (r ∈ update_dashboard_filter c s t df ↔
      ((c = [] ∨ r.category ∈ c) ∧ (s = [] ∨ r.ship_state ∈ s) ∧ (t = [] ∨ r.status ∈ t))))
    ∧ (update_dashboard_filter c s t df).Sublist df
    ∧ update_dashboard_filter c s t (update_dashboard_filter c s t df)
        = update_dashboard_filter c s t df := by
  refine ⟨?_, ?_, ?_⟩
  · intro r hr
    rw [dashboard_filter_eq_filter, List.mem_filter]
    simp [hr, List.isEmpty_iff, and_assoc]
  · rw [dashboard_filter_eq_filter]
    exact List.filter_sublist df
  · rw [dashboard_filter_eq_filter, dashboard_filter_eq_filter, List.filter_filter]
    simp

theorem C4_witness :
    (⟨"2022-04-30", "2022-04", "Electronics", "Maharashtra", "Mumbai", "Delivered", 100, "405-100"⟩ : Record) ∈
      update_dashboard_filter ["Electronics"] [] []
        [⟨"2022-04-30", "2022-04", "Electronics", "Maharashtra", "Mumbai", "Delivered", 100, "405-100"⟩] :=
  ((C4_filter_semantics ["Electronics"] [] [] _).1 _ (by simp)).mpr
    ⟨Or.inr (by simp), Or.inl rfl, Or.inl rfl⟩

/-! ### Character-level machinery for the regular expressions of the source

The three regular expressions of analyze_data_view are implemented
directly over character lists.  Every alternation occurring in them
(sales|orders|count, in|for|from, details|info|status, for|of,
orders|status) has pairwise incomparable alternatives: no alternative is a
prefix of another and no two can match at the same position, so matching
is deterministic and needs no backtracking across alternatives. -/

/-- Python regex class backslash-w (questions here are ASCII). -/
def isWordChar (c : Char) : Bool := c.isAlphanum || c == '_'

/-- Python regex class backslash-s. -/
def isPySpace (c : Char) : Bool :=
  c == ' ' || c == '\t' || c == '\n' || c == '\r' || c == '\x0b' || c == '\x0c'

/-- Python str.lower (ASCII case mapping, as needed for the questions). -/
def pyLower (s : String) : String := String.mk (s.data.map Char.toLower)

/-- Python str.strip: remove leading and trailing whitespace. -/
def pyStrip (s : String) : String :=
  String.mk (((s.data.dropWhile Char.isWhitespace).reverse.dropWhile Char.isWhitespace).reverse)

/-- Match a literal word at the head of the input, returning the rest. -/
def dropLit : List Char → List Char → Option (List Char)
  | [], rest => some rest
  | _ :: _, [] => none
  | c :: cs, d :: ds => if c == d then dropLit cs ds else none

/-- Try a list of literal alternatives in order at the head of the input. -/
def firstAlt : List (List Char) → List Char → Option (List Char × List Char)
  | [], _ => none
  | w :: ws, l =>
    match dropLit w l with
    | some rest => some (w, rest)
    | none => firstAlt ws l

/-- One-or-more whitespace followed by a token that cannot start with
whitespace: consume at least one space, then all remaining spaces. -/
def skipWs1 : List Char → Option (List Char)
  | c :: rest => if isPySpace c then some (rest.dropWhile isPySpace) else none
  | [] => none

/-- Exactly one mandatory whitespace character (used before a capture
group whose class itself contains whitespace, where the greedy run of the
one-or-more whitespace quantifier can be given back to the group). -/
def oneWs : List Char → Option (List Char)
  | c :: rest => if isPySpace c then some rest else none
  | [] => none

/-- Greedy one-or-more run of characters satisfying p. -/
def takeWhile1 (p : Char → Bool) : List Char → Option (List Char × List Char)
  | c :: rest => if p c then some (c :: rest.takeWhile p, rest.dropWhile p) else none
  | [] => none

/-- re.search scanning: try the position matcher at every suffix, leftmost
success wins. -/
def searchPos {α : Type} (f : List Char → Option α) : List Char → Option α
  | [] => f []
  | c :: rest =>
    match f (c :: rest) with
    | some r => some r
    | none => searchPos f rest

/-- Character class of the entity capture group [word, space, dot, dash]. -/
def isEntityChar (c : Char) : Bool := isWordChar c || isPySpace c || c == '.' || c == '-'

/-- Character class of the order-id capture group [word, dash, slash]. -/
def isOrderIdChar (c : Char) : Bool := isWordChar c || c == '-' || c == '/'

/-- The entity-metric pattern (sales|orders|count)(in|for|from)(entity) at
one position (src/dsa.py line 299).  Returns the metric word and the
captured entity, the latter already stripped as the source does at line
303. -/
def entityMetricAt (l : List Char) : Option (String × String) := do
  let (metric, r1) ← firstAlt ["sales".data, "orders".data, "count".data] l
  let r2 ← skipWs1 r1
  let (_, r3) ← firstAlt ["in".data, "for".data, "from".data] r2
  let r4 ← oneWs r3
  let (ent, _) ← takeWhile1 isEntityChar r4
  some (String.mk metric, pyStrip (String.mk ent))

/-- re.search for the entity-metric pattern over the whole message. -/
def searchEntityMetric (msg : String) : Option (String × String) :=
  searchPos entityMetricAt msg.data

/-- The order-lookup pattern (details|info|status)(for|of) order (id) at
one position (src/dsa.py line 300).  Returns the action word and the
captured order id, stripped as at line 324. -/
def orderLookupAt (l : List Char) : Option (String × String) := do
  let (action, r1) ← firstAlt ["details".data, "info".data, "status".data] l
  let r2 ← skipWs1 r1
  let (_, r3) ← firstAlt ["for".data, "of".data] r2
  let r4 ← skipWs1 r3
  let r5 ← dropLit "order".data r4
  let r6 ← skipWs1 r5
  let (oid, _) ← takeWhile1 isOrderIdChar r6
  some (String.mk action, pyStrip (String.mk oid))

/-- re.search for the order-lookup pattern over the whole message. -/
def searchOrderLookup (msg : String) : Option (String × String) :=
  searchPos orderLookupAt msg.data

/-- The lazy capture group of the count-by-status pattern: grow the group
one word-or-space character at a time and after each step test whether an
optional whitespace run followed by the literal orders or status
completes the match (src/dsa.py line 369). -/
def countGroupLoop : List Char → List Char → Option String
  | _, [] => none
  | grpRev, c :: rest =>
    if isWordChar c || isPySpace c then
      let grpRev' := c :: grpRev
      let after := rest.dropWhile isPySpace
      if (dropLit "orders".data after).isSome || (dropLit "status".data after).isSome then
        some (String.mk grpRev'.reverse)
      else countGroupLoop grpRev' rest
    else none

/-- The count-by-status pattern at one position: the literal count plus a
space, then the lazy group.  Returns the captured phrase, stripped as at
line 371. -/
def countStatusAt (l : List Char) : Option String := do
  let r1 ← dropLit "count ".data l
  let g ← countGroupLoop [] r1
  some (pyStrip g)

/-- re.search for the count-by-status pattern over the whole message. -/
def searchCountStatus (msg : String) : Option String :=
  searchPos countStatusAt msg.data

/-- Python str.title: uppercase every alphabetic character that follows a
non-alphabetic one, lowercase the other alphabetic characters. -/
def titleChars : Bool → List Char → List Char
  | _, [] => []
  | prevAlpha, c :: rest =>
    if c.isAlpha then (if prevAlpha then c.toLower else c.toUpper) :: titleChars true rest
    else c :: titleChars false rest

/-- Python str.title on strings. -/
def pyTitle (s : String) : String := String.mk (titleChars false s.data)

/-- Substring occurrence test, the Python operator in for strings. -/
def hasSubChars (pat : List Char) : List Char → Bool
  | [] => (dropLit pat []).isSome
  | c :: rest => (dropLit pat (c :: rest)).isSome || hasSubChars pat rest

/-- msg contains pat as a contiguous substring. -/
def hasSub (s pat : String) : Bool := hasSubChars pat.data s.data

/-- Match a pandas str.contains pattern at the head: the pattern is a
regex whose only special character here is the dot wildcard (the captured
entity can only contain word characters, whitespace, dots and dashes);
comparison is case-insensitive (case=False). -/
def patMatchAt : List Char → List Char → Bool
  | [], _ => true
  | _ :: _, [] => false
  | p :: ps, c :: cs => (p == '.' || p.toLower == c.toLower) && patMatchAt ps cs

/-- Case-insensitive regex-lite search of pat anywhere in the haystack:
the model of pandas Series.str.contains(pat, case=False) per element. -/
def patSearchChars (pat : List Char) : List Char → Bool
  | [] => patMatchAt pat []
  | c :: rest => patMatchAt pat (c :: rest) || patSearchChars pat rest

/-- hay matches the str.contains pattern pat. -/
def patSearch (hay pat : String) : Bool := patSearchChars pat.data hay.data

/-! ### Number formatting

Python format specs of the source: a comma-grouped two-decimal float
format for currency values and a comma-grouped integer format for counts.
Amounts are modelled as exact rationals; rounding to two decimals uses
round-half-up, which agrees with the float formatting of the source on all
exactly representable inputs used here. -/

/-- Insert a comma after every third digit counting from the right; the
input and output are most-significant-first digit lists reversed. -/
def commaEvery3 : List Char → List Char
  | a :: b :: c :: d :: rest => a :: b :: c :: ',' :: commaEvery3 (d :: rest)
  | l => l

/-- Comma-grouped decimal representation of a natural number, the Python
integer format with a comma. -/
def fmtNat (n : Nat) : String := String.mk (commaEvery3 (Nat.toDigits 10 n).reverse).reverse

/-- Two-digit zero-padded fraction part. -/
def twoDigitFrac (m : Nat) : String :=
  (bif m < 10 then "0" else "") ++ String.mk (Nat.toDigits 10 m)

/-- The comma-grouped two-decimal currency number format of the source. -/
def fmtAmount2 (q : ℚ) : String :=
  let cents : ℤ := round (q * 100)
  let a := cents.natAbs
  (bif cents < 0 then "-" else "") ++ (fmtNat (a / 100) ++ ("." ++ twoDigitFrac (a % 100)))

/-! ### Aggregation helpers (the pandas operations used by the source) -/

/-- Sum of the Amount column; zero for an empty view. -/
def sumAmount (l : List Record) : ℚ := (l.map (fun r => r.amount)).sum

/-- Stable ascending insertion of a string key. -/
def insStr (k : String) : List String → List String
  | [] => [k]
  | j :: l => if k < j then k :: j :: l else j :: insStr k l

/-- Ascending sort of group keys: pandas groupby sorts group keys. -/
def sortStrAsc (l : List String) : List String := l.foldr insStr []

/-- The distinct group keys in ascending order, as produced by a pandas
groupby over an always-present, never-null string column. -/
def sortedKeys (key : Record → String) (view : List Record) : List String :=
  sortStrAsc (view.map key).dedup

/-- groupby(key)[Amount].sum(): one (key, summed amount) pair per distinct
key, keys ascending. -/
def groupAmountSums (key : Record → String) (view : List Record) : List (String × ℚ) :=
  (sortedKeys key view).map (fun k => (k, sumAmount (view.filter (fun r => key r == k))))

/-- Stable descending-by-amount insertion: the inserted pair goes before
every pair of not larger amount, so earlier series entries stay first on
ties, as Series.nlargest with keep=first does. -/
def insAmtDesc (p : String × ℚ) : List (String × ℚ) → List (String × ℚ)
  | [] => [p]
  | q :: l => if q.2 ≤ p.2 then p :: q :: l else q :: insAmtDesc p l

/-- Stable descending-by-amount sort. -/
def sortDescAmt (l : List (String × ℚ)) : List (String × ℚ) := l.foldr insAmtDesc []

/-- Series.nlargest(n) with keep=first: stable descending sort, first n. -/
def nlargestAmt (n : Nat) (s : List (String × ℚ)) : List (String × ℚ) :=
  (sortDescAmt s).take n

/-- Stable ascending-by-amount insertion (Series.sort_values). -/
def insAmtAsc (p : String × ℚ) : List (String × ℚ) → List (String × ℚ)
  | [] => [p]
  | q :: l => if p.2 ≤ q.2 then p :: q :: l else q :: insAmtAsc p l

/-- Series.sort_values(): ascending sort by amount. -/
def sort_values_asc (l : List (String × ℚ)) : List (String × ℚ) := l.foldr insAmtAsc []

/-- The top-10 chart series of the dashboard (src/dsa.py lines 236 and
244): groupby sum, nlargest(10), then sort_values() ascending for the
horizontal bar chart. -/
def top10ChartSeries (key : Record → String) (view : List Record) : List (String × ℚ) :=
  sort_values_asc (nlargestAmt 10 (groupAmountSums key view))

/-- Series.idxmax: the index label of the first occurrence of the maximum
value, scanning the series in order. -/
def seriesIdxmax : List (String × ℚ) → Option (String × ℚ)
  | [] => none
  | p :: rest => some (rest.foldl (fun best y => if best.2 < y.2 then y else best) p)

/-- Series.max over a series with default zero for the empty series (the
source only calls it on non-empty series). -/
def seriesMax : List (String × ℚ) → ℚ
  | [] => 0
  | p :: rest => rest.foldl (fun m y => if m < y.2 then y.2 else m) p.2

/-- Keys in order of first appearance. -/
def firstOccKeys (l : List String) : List String :=
  l.foldl (fun acc s => bif acc.contains s then acc else acc ++ [s]) []

/-- Stable descending insertion for status counts. -/
def insCntDesc (p : String × Nat) : List (String × Nat) → List (String × Nat)
  | [] => [p]
  | q :: l => if q.2 ≤ p.2 then p :: q :: l else q :: insCntDesc p l

/-- Series.value_counts(): counts per distinct value, sorted by count
descending (ties kept in first-appearance order in this model). -/
def statusValueCounts (l : List String) : List (String × Nat) :=
  ((firstOccKeys l).map (fun k => (k, l.count k))).foldr insCntDesc []

/-! ### Response texts of the question callback

Each builder reproduces one f-string of src/dsa.py verbatim (appends are
right-nested to ease reasoning about leading characters). -/

/-- The bot reply wrapper: the bot emoji followed by the response text. -/
def mkBot (s : String) : String := "🤖 " ++ s

/-- Reply to an empty question (src/dsa.py line 275). -/
def promptMsg : String := "Please ask a question about the current data view."

/-- Reply for an empty filtered view (line 291). -/
def noDataMsg (fd : String) : String :=
  "📉 No data found for the " ++ (fd ++ ". Please broaden your filters.")

/-- Default reply when no pattern matches (line 295). -/
def defaultMsg (fd : String) : String :=
  "🤔 I\x27m not sure how to interpret that for the " ++ (fd ++
    ". Try asking about totals, averages, tops, counts, or specifics like \x27sales in Mumbai\x27 or \x27details for order 123-456\x27.")

/-- Reply after a caught exception (line 380). -/
def oopsMsg (fd : String) : String :=
  "🤖 Oops! Something went wrong while analyzing the " ++ (fd ++
    ". Please check the data or try a different question.")

/-- Entity-not-found reply of the entity-metric branch (line 321). -/
def entityNotFoundMsg (entity fd : String) : String :=
  "❓ Could not find \x27" ++ (entity ++ ("\x27 as a city, state, or category in the " ++ (fd ++ ".")))

/-- Status-only order reply (line 330). -/
def statusMsg (oid fd st : String) : String :=
  "🏷️ Status for order **" ++ (oid ++ ("** in " ++ (fd ++ (": **" ++ (st ++ "**.")))))

/-- Full order detail listing (lines 332-339). -/
def detailsMsg (oid fd : String) (r : Record) : String :=
  "📋 Details for Order ID **" ++ (oid ++ ("** (found in " ++ (fd ++ ("):" ++
    ("\n- **Date:** " ++ (r.date ++
    ("\n- **Status:** " ++ (r.status ++
    ("\n- **Amount:** ₹" ++ (fmtAmount2 r.amount ++
    ("\n- **Category:** " ++ (r.category ++
    ("\n- **Ship to City:** " ++ (r.ship_city ++
    ("\n- **Ship to State:** " ++ r.ship_state)))))))))))))))

/-- Order present in the dataset but excluded by the filters (line 342). -/
def excludedMsg (oid fd : String) : String :=
  "🚫 Order **" ++ (oid ++ ("** exists but is not in the " ++ (fd ++ ". Try removing filters.")))

/-- Order absent from the dataset entirely (line 343). -/
def notFoundOrderMsg (oid : String) : String :=
  "🚫 Order ID **" ++ (oid ++ "** not found in the dataset.")

/-- Total-sales reply (line 347). -/
def totalSalesMsg (dff : List Record) (fd : String) : String :=
  "📊 Total sales for the " ++ (fd ++ (": **₹" ++ (fmtAmount2 (sumAmount dff) ++ "**.")))

/-- Order-count reply (line 349). -/
def orderCountMsg (dff : List Record) (fd : String) : String :=
  "🔢 Orders in the " ++ (fd ++ (": **" ++ (fmtNat dff.length ++ "**.")))

/-- Average-amount reply, with the division guard of lines 351-352. -/
def averageResp (dff : List Record) (fd : String) : String :=
  bif decide (0 < dff.length) then
    "⚖️ Average order amount for the " ++ (fd ++ (": **₹" ++
      (fmtAmount2 (sumAmount dff / (dff.length : ℚ)) ++ "**.")))
  else "📉 Cannot calculate average for the " ++ (fd ++ ".")

/-- Top-category reply (lines 353-355): idxmax for the name and max for
the value over the grouped sums; the guard of the source (column present,
no null values) reduces to non-emptiness of the view in this model. -/
def topCategoryResp (dff : List Record) (fd : String) : String :=
  let sums := groupAmountSums (fun r => r.category) dff
  bif !dff.isEmpty then
    match seriesIdxmax sums with
    | some p => "🏆 Top category (by sales) in " ++ (fd ++ (": **" ++ (p.1 ++
        ("** (₹" ++ (fmtAmount2 (seriesMax sums) ++ ").")))))
    | none => "❓ Cannot determine top category for " ++ (fd ++ ".")
  else "❓ Cannot determine top category for " ++ (fd ++ ".")

/-- Top-city reply (lines 356-358). -/
def topCityResp (dff : List Record) (fd : String) : String :=
  let sums := groupAmountSums (fun r => r.ship_city) dff
  bif !dff.isEmpty then
    match seriesIdxmax sums with
    | some p => "🏙️ Top city (by sales) in " ++ (fd ++ (": **" ++ (p.1 ++
        ("** (₹" ++ (fmtAmount2 (seriesMax sums) ++ ").")))))
    | none => "❓ Cannot determine top city for " ++ (fd ++ ".")
  else "❓ Cannot determine top city for " ++ (fd ++ ".")

/-- Top-state reply (lines 359-361). -/
def topStateResp (dff : List Record) (fd : String) : String :=
  let sums := groupAmountSums (fun r => r.ship_state) dff
  bif !dff.isEmpty then
    match seriesIdxmax sums with
    | some p => "📍 Top state (by sales) in " ++ (fd ++ (": **" ++ (p.1 ++
        ("** (₹" ++ (fmtAmount2 (seriesMax sums) ++ ").")))))
    | none => "❓ Cannot determine top state for " ++ (fd ++ ".")
  else "❓ Cannot determine top state for " ++ (fd ++ ".")

/-- Status-summary reply (lines 362-367). -/
def statusSummaryResp (dff : List Record) (fd : String) : String :=
  bif !dff.isEmpty then
    (statusValueCounts (dff.map (fun r => r.status))).foldl
      (fun acc p => acc ++ ("\n- **" ++ (p.1 ++ (":** " ++ (fmtNat p.2 ++ " orders")))))
      ("📋 Status summary for " ++ (fd ++ ":"))
  else "❓ No status info for " ++ (fd ++ ".")

/-- Count-by-status reply (lines 368-374); when the inner pattern does
not match, the preset default response is kept. -/
def countStatusResp (msg : String) (dff : List Record) (fd dflt : String) : String :=
  match searchCountStatus msg with
  | some q =>
    "🔢 Found **" ++ (fmtNat (dff.filter (fun r => patSearch r.status q)).length ++
      ("** orders with status containing \x27" ++ (q ++ ("\x27 in " ++ (fd ++ ".")))))
  | none => dflt

/-- Greeting reply (line 375). -/
def helloMsg (fd : String) : String :=
  "👋 Hello! I can analyze the " ++ (fd ++ ". What would you like to know?")

/-- Farewell reply (line 376). -/
def thanksMsg : String := "👍 Happy to help analyze!"

/-! ### The question callback (src/dsa.py lines 271-383) -/

/-- The entity-metric branch (lines 302-321).  Resolution order: exact
city match on the title-cased entity, then exact state match, then
case-insensitive substring category match; first dimension wins.  In the
three found-entity branches the source then evaluates an f-string whose
format specifier is the literal text

    ,.2f if metric == sales else ,

which is not a valid Python format specifier, so formatting the metric
value raises ValueError before the response string is produced; the
branches therefore end in an error.  Only the entity-not-found branch
returns normally. -/
def entityBranch (metric entity : String) (dff : List Record) (fd : String) : Except PyErr String :=
  let entity_title := pyTitle entity
  bif dff.any (fun r => r.ship_city == entity_title) then
    let specific := dff.filter (fun r => r.ship_city == entity_title)
    let _metric_val : ℚ := bif metric == "sales" then sumAmount specific else (specific.length : ℚ)
    .error .valueError
  else bif dff.any (fun r => r.ship_state == entity_title) then
    let specific := dff.filter (fun r => r.ship_state == entity_title)
    let _metric_val : ℚ := bif metric == "sales" then sumAmount specific else (specific.length : ℚ)
    .error .valueError
  else bif dff.any (fun r => patSearch r.category entity) then
    let specific := dff.filter (fun r => patSearch r.category entity)
    let _metric_val : ℚ := bif metric == "sales" then sumAmount specific else (specific.length : ℚ)
    .error .valueError
  else .ok (entityNotFoundMsg entity fd)

/-- The order-lookup branch (lines 323-343): exact match in the filtered
view first; on failure, the unfiltered dataset distinguishes an order
excluded by the filters from one absent entirely. -/
def orderBranch (action oid : String) (dff df : List Record) (fd : String) : String :=
  match dff.find? (fun r => r.order_id == oid) with
  | some order_data =>
    bif action == "status" then statusMsg oid fd order_data.status
    else detailsMsg oid fd order_data
  | none =>
    bif df.any (fun r => r.order_id == oid) then excludedMsg oid fd
    else notFoundOrderMsg oid

/-- The fixed-phrase elif chain (lines 346-376), evaluated only when
neither regular expression matched; the preset default response is kept
when nothing matches. -/
def phraseChain (msg : String) (dff : List Record) (fd dflt : String) : String :=
  bif hasSub msg "total sales" || hasSub msg "total revenue" then totalSalesMsg dff fd
  else bif hasSub msg "how many orders" || hasSub msg "total orders" || hasSub msg "order count" then
    orderCountMsg dff fd
  else bif hasSub msg "average amount" || hasSub msg "average sales" then averageResp dff fd
  else bif hasSub msg "top category" then topCategoryResp dff fd
  else bif hasSub msg "top city" then topCityResp dff fd
  else bif hasSub msg "top state" then topStateResp dff fd
  else bif hasSub msg "status summary" || hasSub msg "order status" then statusSummaryResp dff fd
  else bif hasSub msg "count" && (hasSub msg "orders" || hasSub msg "status") then
    countStatusResp msg dff fd dflt
  else bif hasSub msg "hello" || hasSub msg "hi" then helloMsg fd
  else bif hasSub msg "bye" || hasSub msg "thanks" then thanksMsg
  else dflt

/-- The body of the try block (lines 297-376): entity-metric pattern
first, then order lookup, then the fixed-phrase chain. -/
def interpretQuestion (msg : String) (dff df : List Record) (fd : String) : Except PyErr String :=
  match searchEntityMetric msg with
  | some p => entityBranch p.1 p.2 dff fd
  | none =>
    match searchOrderLookup msg with
    | some p => .ok (orderBranch p.1 p.2 dff df fd)
    | none => .ok (phraseChain msg dff fd (defaultMsg fd))

/-- The whole question callback analyze_data_view (lines 271-383): the
empty-question check, the re-derived filtered view, the empty-view check,
lowercasing and stripping of the question, then the try block whose
exceptions are converted to the generic failure reply.  The callback
always returns a string; no exception escapes. -/
def analyze_data_view (df : List Record) (user_message : String)
    (selected_categories selected_states selected_statuses : List String) : String :=
  bif user_message == "" then mkBot promptMsg
  else
    let dff := analyze_filter selected_categories selected_states selected_statuses df
    let fd := filter_desc_of selected_categories selected_states selected_statuses
    bif dff.isEmpty then mkBot (noDataMsg fd)
    else
      let msg := pyStrip (pyLower user_message)
      match interpretQuestion msg dff df fd with
      | .ok response => mkBot response
      | .error _ => mkBot (oopsMsg fd)

/-- Division as Python performs it: raises on a zero divisor. -/
def pyDiv (a b : ℚ) : Except PyErr ℚ :=
  bif b == 0 then .error .zeroDivisionError else .ok (a / b)

/-- The KPI cards of the dashboard callback (src/dsa.py lines 197-217):
the three headline strings (total sales, total orders, average order
value).  The empty view returns fixed zero cards; otherwise the average
divides by the record count under the guard of line 211. -/
def update_dashboard_kpis (c s t : List String) (df : List Record) :
    Except PyErr (String × String × String) :=
  let dff := update_dashboard_filter c s t df
  bif dff.isEmpty then .ok ("₹0.00", "0", "₹0.00")
  else
    let total_sales := sumAmount dff
    let total_orders := dff.length
    do
      let avg ← bif decide (0 < total_orders) then pyDiv total_sales (total_orders : ℚ)
        else .ok 0
      .ok ("₹" ++ fmtAmount2 total_sales, fmtNat total_orders, "₹" ++ fmtAmount2 avg)

/-! ### Concrete datasets used by the scenario claims -/

/-- First record of the scenario dataset of the specification. -/
def recMumbai : Record :=
  ⟨"2022-04-30", "2022-04", "Electronics", "Maharashtra", "Mumbai", "Delivered", 100, "405-100"⟩

/-- Second record of the scenario dataset of the specification. -/
def recDelhi : Record :=
  ⟨"2022-05-01", "2022-05", "Books", "Delhi", "Delhi", "Cancelled", 50, "405-200"⟩

/-- The two-record scenario dataset of the specification. -/
def scenarioData : List Record := [recMumbai, recDelhi]

/-! ### C2: the entity-metric formatting defect -/

/-- C2 (code bug): the claim describes the intended behaviour (resolution
order city, state, category substring; then the formatted metric, so that
the question sales in Mumbai over the scenario dataset answers with the
amount 100.00).  The code instead evaluates an f-string whose format
specifier is malformed, raising ValueError whenever an entity is resolved,
and the exception handler turns this into the generic analysis-failed
reply.  This theorem evaluates the embedded code at the failing input:
the try-block errors and the callback returns the failure reply rather
than any answer containing the amount. -/
theorem C2_entity_metric_format_defect :
    analyze_data_view scenarioData "sales in Mumbai" [] [] [] = mkBot (oopsMsg "overall data")
      ∧ interpretQuestion "sales in mumbai" scenarioData scenarioData "overall data"
          = Except.error PyErr.valueError :=
  ⟨rfl, rfl⟩

/-! ### C8: empty view and empty dataset -/

/-- C8 counterexample: the claim quantifies over every question, but the
empty question is answered by the prompt-for-input reply, which the
callback checks before the empty-view check, so the no-data reply is not
produced for it even over the empty dataset. -/
theorem C8_counterexample :
    analyze_data_view ([] : List Record) "" [] [] [] = mkBot promptMsg
      ∧ mkBot promptMsg ≠ mkBot (noDataMsg "overall data") := by
  exact ⟨rfl, by decide⟩

/-- C8 (amended): for every non-empty question asked when the re-derived
filtered view is empty (in particular over the empty dataset), the
matcher returns the no-data reply naming the filter description; the
empty-view dashboard shows the fixed zero KPI cards, and the KPI
computation never raises a division error (the division is guarded). -/
theorem C8_empty_view_behavior (df : List Record) (q : String) (c s t : List String) :
    (q ≠ "" → analyze_filter c s t df = [] →
      analyze_data_view df q c s t = mkBot (noDataMsg (filter_desc_of c s t)))
    ∧ (update_dashboard_filter c s t df = [] →
      update_dashboard_kpis c s t df = Except.ok ("₹0.00", "0", "₹0.00"))
    ∧ (∀ e, update_dashboard_kpis c s t df ≠ Except.error e) := by
  refine ⟨?_, ?_, ?_⟩
  · intro hq hv
    have e1 : (q == "") = false := by simp [hq]
    simp [analyze_data_view, e1, hv]
  · intro hv
    simp [update_dashboard_kpis, hv]
  · intro e
    by_cases hv : (update_dashboard_filter c s t df).isEmpty
    · simp [update_dashboard_kpis, hv]
    · have hne : update_dashboard_filter c s t df ≠ [] := by
        simpa [List.isEmpty_iff] using hv
      have hlen : 0 < (update_dashboard_filter c s t df).length :=
        List.length_pos.mpr hne
      have hcast : ((update_dashboard_filter c s t df).length : ℚ) ≠ 0 := by
        exact_mod_cast Nat.pos_iff_ne_zero.mp hlen
      have hbeq : (((update_dashboard_filter c s t df).length : ℚ) == 0) = false :=
        beq_eq_false_iff_ne.mpr hcast
      simp only [update_dashboard_kpis, hv, Bool.not_eq_true, Bool.cond_false,
        Bool.cond_true, hlen, decide_true_eq_true, decide_eq_true_eq, pyDiv, hbeq]
      intro h
      exact Except.noConfusion h

theorem C8_witness :
    analyze_data_view ([] : List Record) "total sales" [] [] [] = mkBot (noDataMsg "overall data")
      ∧ update_dashboard_kpis [] [] [] ([] : List Record) = Except.ok ("₹0.00", "0", "₹0.00") :=
  ⟨(C8_empty_view_behavior [] "total sales" [] [] []).1 (by decide) rfl,
   (C8_empty_view_behavior [] "total sales" [] [] []).2.1 rfl⟩

/-! ### C10: case and outer-whitespace insensitivity -/

/-- C10: two non-empty questions with the same lowercased, stripped form
(in particular two questions differing only in letter case or in leading
and trailing whitespace) receive the same answer under the same filter
state, because the callback lowercases and strips the question once
before every pattern check. -/
theorem C10_case_whitespace_insensitive (df : List Record) (c s t : List String)
    (q1 q2 : String) (h1 : q1 ≠ "") (h2 : q2 ≠ "")
    (h : pyStrip (pyLower q1) = pyStrip (pyLower q2)) :
    analyze_data_view df q1 c s t = analyze_data_view df q2 c s t := by
  have e1 : (q1 == "") = false := by simp [h1]
  have e2 : (q2 == "") = false := by simp [h2]
  simp only [analyze_data_view, e1, e2, Bool.cond_false, h]

theorem C10_witness :
    analyze_data_view scenarioData "Total Sales" [] [] []
      = analyze_data_view scenarioData "  total sales  " [] [] [] :=
  C10_case_whitespace_insensitive scenarioData [] [] [] _ _
    (by decide) (by decide) (by decide)

/-! ### C6: exceptions are caught at the matcher boundary -/

/-- C6: whenever interpreting the question (the entity-metric,
order-lookup and fixed-phrase steps of the try block) raises an
exception, the callback catches it and returns the generic
analysis-failed reply; the callback is a total function into strings, so
no exception propagates to the caller. -/
theorem C6_matcher_errors_caught (df : List Record) (q : String) (c s t : List String)
    (e : PyErr) (hq : q ≠ "")
    (hne : (analyze_filter c s t df).isEmpty = false)
    (herr : interpretQuestion (pyStrip (pyLower q)) (analyze_filter c s t df) df
        (filter_desc_of c s t) = Except.error e) :
    analyze_data_view df q c s t = mkBot (oopsMsg (filter_desc_of c s t)) := by
  have e1 : (q == "") = false := by simp [hq]
  simp only [analyze_data_view, e1, Bool.cond_false, hne, herr]

theorem C6_witness :
    analyze_data_view scenarioData "orders in delhi" [] [] [] = mkBot (oopsMsg "overall data") :=
  C6_matcher_errors_caught scenarioData "orders in delhi" [] [] [] PyErr.valueError
    (by decide) rfl rfl

/-! ### C5: the three order-lookup cases -/

/-- String append acts as append on the underlying character lists. -/
theorem strDataAppend (s t : String) : (s ++ t).data = s.data ++ t.data := by
  cases s
  cases t
  rfl

/-- Two strings differing at some character position are different. -/
theorem str_ne_of_idx (s t : String) (n : Nat)
    (h : s.data.get? n ≠ t.data.get? n) : s ≠ t :=
  fun he => h (by rw [he])

/-- Indexing inside the first summand of an append. -/
theorem get_append_first (p x : String) (n : Nat) (h : n < p.data.length) :
    (p ++ x).data.get? n = p.data.get? n := by
  rw [strDataAppend]
  simp [List.get?_eq_getElem?, List.getElem?_append_left h]

theorem status_ne_excluded (oid fd st : String) :
    statusMsg oid fd st ≠ excludedMsg oid fd := by
  apply str_ne_of_idx _ _ 0
  rw [statusMsg, excludedMsg, get_append_first _ _ 0 (by decide),
    get_append_first _ _ 0 (by decide)]
  decide

theorem status_ne_notFound (oid fd st oid2 : String) :
    statusMsg oid fd st ≠ notFoundOrderMsg oid2 := by
  apply str_ne_of_idx _ _ 0
  rw [statusMsg, notFoundOrderMsg, get_append_first _ _ 0 (by decide),
    get_append_first _ _ 0 (by decide)]
  decide

theorem details_ne_excluded (oid fd : String) (r : Record) (oid2 fd2 : String) :
    detailsMsg oid fd r ≠ excludedMsg oid2 fd2 := by
  apply str_ne_of_idx _ _ 0
  rw [detailsMsg, excludedMsg, get_append_first _ _ 0 (by decide),
    get_append_first _ _ 0 (by decide)]
  decide

theorem details_ne_notFound (oid fd : String) (r : Record) (oid2 : String) :
    detailsMsg oid fd r ≠ notFoundOrderMsg oid2 := by
  apply str_ne_of_idx _ _ 0
  rw [detailsMsg, notFoundOrderMsg, get_append_first _ _ 0 (by decide),
    get_append_first _ _ 0 (by decide)]
  decide

theorem excluded_ne_notFound (oid fd oid2 : String) :
    excludedMsg oid fd ≠ notFoundOrderMsg oid2 := by
  apply str_ne_of_idx _ _ 8
  rw [excludedMsg, notFoundOrderMsg, get_append_first _ _ 8 (by decide),
    get_append_first _ _ 8 (by decide)]
  decide

/-- C5: the order-lookup branch distinguishes three mutually exclusive
cases: the order id present in the filtered view (answered by the
status-only reply or the full detail listing, depending on the action
word), absent from the view but present in the unfiltered dataset
(excluded-by-filter reply), and absent from both (not-found reply) - and
the replies of the three cases are pairwise distinct strings. -/
theorem C5_order_lookup_cases (dff df : List Record) (fd action oid : String) :
    (∀ r, dff.find? (fun x => x.order_id == oid) = some r →
      orderBranch action oid dff df fd
        = (bif action == "status" then statusMsg oid fd r.status else detailsMsg oid fd r))
    ∧ (dff.find? (fun x => x.order_id == oid) = none →
        df.any (fun x => x.order_id == oid) = true →
        orderBranch action oid dff df fd = excludedMsg oid fd)
    ∧ (dff.find? (fun x => x.order_id == oid) = none →
        df.any (fun x => x.order_id == oid) = false →
        orderBranch action oid dff df fd = notFoundOrderMsg oid)
    ∧ (∀ st r, statusMsg oid fd st ≠ excludedMsg oid fd
        ∧ statusMsg oid fd st ≠ notFoundOrderMsg oid
        ∧ detailsMsg oid fd r ≠ excludedMsg oid fd
        ∧ detailsMsg oid fd r ≠ notFoundOrderMsg oid
        ∧ excludedMsg oid fd ≠ notFoundOrderMsg oid) := by
  refine ⟨?_, ?_, ?_, ?_⟩
  · intro r h
    simp [orderBranch, h]
  · intro h1 h2
    simp [orderBranch, h1, h2]
  · intro h1 h2
    simp [orderBranch, h1, h2]
  · intro st r
    exact ⟨status_ne_excluded oid fd st, status_ne_notFound oid fd st oid,
      details_ne_excluded oid fd r oid fd, details_ne_notFound oid fd r oid,
      excluded_ne_notFound oid fd oid⟩

theorem C5_witness :
    orderBranch "status" "405-100" scenarioData scenarioData "overall data"
        = statusMsg "405-100" "overall data" "Delivered"
      ∧ orderBranch "details" "405-100" [recDelhi] scenarioData "current filtered view"
        = excludedMsg "405-100" "current filtered view"
      ∧ orderBranch "details" "405-999" scenarioData scenarioData "overall data"
        = notFoundOrderMsg "405-999"
      ∧ excludedMsg "405-100" "overall data" ≠ notFoundOrderMsg "405-100" :=
  ⟨(C5_order_lookup_cases scenarioData scenarioData "overall data" "status" "405-100").1
      recMumbai rfl,
   (C5_order_lookup_cases [recDelhi] scenarioData "current filtered view" "details" "405-100").2.1
      rfl rfl,
   (C5_order_lookup_cases scenarioData scenarioData "overall data" "details" "405-999").2.2.1
      rfl rfl,
   ((C5_order_lookup_cases scenarioData scenarioData "overall data" "details" "405-100").2.2.2
      "x" recMumbai).2.2.2.2⟩

/-! ### C3: the dispatch order of the matcher

The specification describes the matcher as an ordered table of
(predicate, handler) pairs evaluated in a fixed sequence with the first
match winning.  The table below spells the order out as data: one entry
per check, in the order the specification lists them; the equivalence
theorem shows the callback realises exactly this ordered dispatch. -/

/-- A guarded dispatch entry: present exactly when its predicate holds. -/
def optGuard {α : Type} (b : Bool) (x : α) : Option α := bif b then some x else none

/-- First present entry wins; otherwise the default. -/
def firstSome {α : Type} : List (Option α) → α → α
  | [], d => d
  | o :: rest, d =>
    match o with
    | some x => x
    | none => firstSome rest d

/-- The ordered check table of the specification for steps 3 to 5: the
entity-metric pattern, the order-lookup pattern, then the fixed phrases
in the listed order (total sales and revenue, the three order-count
phrases, the two average phrases, top category, top city, top state, the
status summary, count-by-status, greetings, farewells). -/
def checkTable (msg : String) (dff df : List Record) (fd dflt : String) :
    List (Option (Except PyErr String)) :=
  [ (searchEntityMetric msg).map (fun p => entityBranch p.1 p.2 dff fd),
    (searchOrderLookup msg).map (fun p => Except.ok (orderBranch p.1 p.2 dff df fd)),
    optGuard (hasSub msg "total sales" || hasSub msg "total revenue")
      (Except.ok (totalSalesMsg dff fd)),
    optGuard (hasSub msg "how many orders" || hasSub msg "total orders" || hasSub msg "order count")
      (Except.ok (orderCountMsg dff fd)),
    optGuard (hasSub msg "average amount" || hasSub msg "average sales")
      (Except.ok (averageResp dff fd)),
    optGuard (hasSub msg "top category") (Except.ok (topCategoryResp dff fd)),
    optGuard (hasSub msg "top city") (Except.ok (topCityResp dff fd)),
    optGuard (hasSub msg "top state") (Except.ok (topStateResp dff fd)),
    optGuard (hasSub msg "status summary" || hasSub msg "order status")
      (Except.ok (statusSummaryResp dff fd)),
    optGuard (hasSub msg "count" && (hasSub msg "orders" || hasSub msg "status"))
      (Except.ok (countStatusResp msg dff fd dflt)),
    optGuard (hasSub msg "hello" || hasSub msg "hi") (Except.ok (helloMsg fd)),
    optGuard (hasSub msg "bye" || hasSub msg "thanks") (Except.ok thanksMsg) ]

/-- The specification-shaped matcher: checks 1 and 2 (empty question,
empty view), then the ordered table with the default reply as fallback,
with caught-exception conversion at the boundary. -/
def answer_spec (df : List Record) (user_message : String)
    (selected_categories selected_states selected_statuses : List String) : String :=
  bif user_message == "" then mkBot promptMsg
  else
    let dff := analyze_filter selected_categories selected_states selected_statuses df
    let fd := filter_desc_of selected_categories selected_states selected_statuses
    bif dff.isEmpty then mkBot (noDataMsg fd)
    else
      let msg := pyStrip (pyLower user_message)
      match firstSome (checkTable msg dff df fd (defaultMsg fd)) (Except.ok (defaultMsg fd)) with
      | Except.ok response => mkBot response
      | Except.error _ => mkBot (oopsMsg fd)

/-- The try-block body realises the ordered dispatch table. -/
theorem interpret_eq_dispatch (msg : String) (dff df : List Record) (fd : String) :
    interpretQuestion msg dff df fd
      = firstSome (checkTable msg dff df fd (defaultMsg fd)) (Except.ok (defaultMsg fd)) := by
  unfold interpretQuestion checkTable
  cases hE : searchEntityMetric msg with
  | some p => simp [firstSome]
  | none =>
    cases hO : searchOrderLookup msg with
    | some p => simp [firstSome]
    | none =>
      simp only [Option.map_none']
      unfold phraseChain
      cases h1 : (hasSub msg "total sales" || hasSub msg "total revenue") <;>
        simp only [h1, optGuard, Bool.cond_true, Bool.cond_false, firstSome]
      cases h2 : (hasSub msg "how many orders" || hasSub msg "total orders" || hasSub msg "order count") <;>
        simp only [h2, Bool.cond_true, Bool.cond_false, firstSome]
      cases h3 : (hasSub msg "average amount" || hasSub msg "average sales") <;>
        simp only [h3, Bool.cond_true, Bool.cond_false, firstSome]
      cases h4 : hasSub msg "top category" <;>
        simp only [h4, Bool.cond_true, Bool.cond_false, firstSome]
      cases h5 : hasSub msg "top city" <;>
        simp only [h5, Bool.cond_true, Bool.cond_false, firstSome]
      cases h6 : hasSub msg "top state" <;>
        simp only [h6, Bool.cond_true, Bool.cond_false, firstSome]
      cases h7 : (hasSub msg "status summary" || hasSub msg "order status") <;>
        simp only [h7, Bool.cond_true, Bool.cond_false, firstSome]
      cases h8 : (hasSub msg "count" && (hasSub msg "orders" || hasSub msg "status")) <;>
        simp only [h8, Bool.cond_true, Bool.cond_false, firstSome]
      cases h9 : (hasSub msg "hello" || hasSub msg "hi") <;>
        simp only [h9, Bool.cond_true, Bool.cond_false, firstSome]
      cases h10 : (hasSub msg "bye" || hasSub msg "thanks") <;>
        simp only [h10, Bool.cond_true, Bool.cond_false, firstSome]

/-- C3: for every question and filter state the callback evaluates its
checks in exactly the claimed order with the first match winning: empty
question, then empty filtered view, then the entity-metric pattern, then
the order-lookup pattern, then the fixed-phrase table in the listed
order, and otherwise the default reply naming the filter description -
the callback equals the specification-shaped ordered dispatch. -/
theorem C3_dispatch_order (df : List Record) (q : String) (c s t : List String) :
    analyze_data_view df q c s t = answer_spec df q c s t := by
  unfold analyze_data_view answer_spec
  simp only [interpret_eq_dispatch]

/-! ### C7: top-N ranking -/

/-- The ranking order actually realised by the code: larger summed amount
first, ties by ascending group key (pandas groupby sorts the group keys
and nlargest and idxmax prefer the first entry of the key-sorted series
among ties). -/
def rankLt (a b : String × ℚ) : Prop := b.2 < a.2 ∨ (a.2 = b.2 ∧ a.1 < b.1)

theorem mem_insStr (k a : String) (l : List String) : a ∈ insStr k l ↔ a = k ∨ a ∈ l := by
  induction l with
  | nil => simp [insStr]
  | cons j l ih =>
    simp only [insStr]
    by_cases h : k < j
    · rw [if_pos h]
      simp [List.mem_cons]
    · rw [if_neg h]
      simp [List.mem_cons, ih]
      tauto

theorem mem_sortStrAsc (a : String) (l : List String) : a ∈ sortStrAsc l ↔ a ∈ l := by
  induction l with
  | nil => simp [sortStrAsc]
  | cons x l ih =>
    show a ∈ insStr x (sortStrAsc l) ↔ _
    rw [mem_insStr]
    simp [ih]

theorem insStr_pairwise (k : String) (l : List String) (hk : k ∉ l)
    (hl : l.Pairwise (· < ·)) : (insStr k l).Pairwise (· < ·) := by
  induction l with
  | nil => simp [insStr]
  | cons j l ih =>
    rw [List.pairwise_cons] at hl
    obtain ⟨hj, hl'⟩ := hl
    simp only [insStr]
    by_cases h : k < j
    · rw [if_pos h]
      refine List.Pairwise.cons ?_ (List.Pairwise.cons hj hl')
      intro b hb
      rcases List.mem_cons.mp hb with rfl | hb2
      · exact h
      · exact lt_trans h (hj b hb2)
    · rw [if_neg h]
      have hkj : j < k := by
        have hne : k ≠ j := fun he => hk (he ▸ List.mem_cons_self j l)
        exact lt_of_le_of_ne (le_of_not_lt h) (Ne.symm hne)
      refine List.Pairwise.cons ?_ (ih (fun hmem => hk (List.mem_cons_of_mem j hmem)) hl')
      intro b hb
      rcases (mem_insStr k b l).mp hb with rfl | hb2
      · exact hkj
      · exact hj b hb2

theorem sortStrAsc_pairwise (l : List String) (h : l.Nodup) :
    (sortStrAsc l).Pairwise (· < ·) := by
  induction l with
  | nil => simp [sortStrAsc]
  | cons x l ih =>
    rw [List.nodup_cons] at h
    show (insStr x (sortStrAsc l)).Pairwise (· < ·)
    exact insStr_pairwise x _ (fun hmem => h.1 ((mem_sortStrAsc x l).mp hmem)) (ih h.2)

theorem length_insStr (k : String) (l : List String) : (insStr k l).length = l.length + 1 := by
  induction l with
  | nil => simp [insStr]
  | cons j l ih =>
    simp only [insStr]
    by_cases h : k < j
    · rw [if_pos h]
      simp
    · rw [if_neg h]
      simp [ih]

theorem length_sortStrAsc (l : List String) : (sortStrAsc l).length = l.length := by
  induction l with
  | nil => rfl
  | cons x l ih =>
    show (insStr x (sortStrAsc l)).length = _
    rw [length_insStr, ih]
    rfl

/-- The group keys of the grouped sums are strictly ascending. -/
theorem groupAmountSums_keyAsc (key : Record → String) (view : List Record) :
    (groupAmountSums key view).Pairwise (fun a b => a.1 < b.1) := by
  unfold groupAmountSums
  rw [List.pairwise_map]
  simpa using sortStrAsc_pairwise _ (List.nodup_dedup _)

theorem groupAmountSums_ne_nil (key : Record → String) (view : List Record) (h : view ≠ []) :
    groupAmountSums key view ≠ [] := by
  have h1 : (view.map key) ≠ [] := by simpa using h
  have h2 : (view.map key).dedup ≠ [] := by rwa [ne_eq, List.dedup_eq_nil]
  have h3 : sortStrAsc (view.map key).dedup ≠ [] := by
    rw [ne_eq, ← List.length_eq_zero, length_sortStrAsc, List.length_eq_zero]
    exact h2
  unfold groupAmountSums sortedKeys
  simpa using h3

theorem mem_insAmtDesc (p a : String × ℚ) (l : List (String × ℚ)) :
    a ∈ insAmtDesc p l ↔ a = p ∨ a ∈ l := by
  induction l with
  | nil => simp [insAmtDesc]
  | cons q l ih =>
    simp only [insAmtDesc]
    by_cases h : q.2 ≤ p.2
    · rw [if_pos h]
      simp [List.mem_cons]
    · rw [if_neg h]
      simp [List.mem_cons, ih]
      tauto

theorem mem_sortDescAmt (a : String × ℚ) (l : List (String × ℚ)) :
    a ∈ sortDescAmt l ↔ a ∈ l := by
  induction l with
  | nil => simp [sortDescAmt]
  | cons x l ih =>
    show a ∈ insAmtDesc x (sortDescAmt l) ↔ _
    rw [mem_insAmtDesc]
    simp [ih]

theorem insAmtDesc_pairwise (p : String × ℚ) (l : List (String × ℚ))
    (hkey : ∀ q ∈ l, p.1 < q.1) (hl : l.Pairwise rankLt) :
    (insAmtDesc p l).Pairwise rankLt := by
  induction l with
  | nil => simp [insAmtDesc]
  | cons q t ih =>
    rw [List.pairwise_cons] at hl
    obtain ⟨hq, ht⟩ := hl
    simp only [insAmtDesc]
    by_cases h : q.2 ≤ p.2
    · rw [if_pos h]
      refine List.Pairwise.cons ?_ (List.Pairwise.cons hq ht)
      intro b hb
      have hble : b.2 ≤ p.2 := by
        rcases List.mem_cons.mp hb with rfl | hb2
        · exact h
        · have : b.2 ≤ q.2 := by
            rcases hq b hb2 with h1 | h1
            · exact le_of_lt h1
            · exact le_of_eq h1.1.symm
          exact le_trans this h
      rcases lt_or_eq_of_le hble with h1 | h1
      · exact Or.inl h1
      · exact Or.inr ⟨h1.symm, hkey b hb⟩
    · rw [if_neg h]
      have hpq : p.2 < q.2 := not_le.mp h
      refine List.Pairwise.cons ?_ (ih (fun x hx => hkey x (List.mem_cons_of_mem q hx)) ht)
      intro b hb
      rcases (mem_insAmtDesc p b t).mp hb with rfl | hb2
      · exact Or.inl hpq
      · exact hq b hb2

theorem sortDescAmt_pairwise (l : List (String × ℚ))
    (h : l.Pairwise (fun a b => a.1 < b.1)) : (sortDescAmt l).Pairwise rankLt := by
  induction l with
  | nil => simp [sortDescAmt]
  | cons x t ih =>
    rw [List.pairwise_cons] at h
    show (insAmtDesc x (sortDescAmt t)).Pairwise rankLt
    exact insAmtDesc_pairwise x _ (fun q hq => h.1 q ((mem_sortDescAmt q t).mp hq)) (ih h.2)

theorem mem_insAmtAsc (p a : String × ℚ) (l : List (String × ℚ)) :
    a ∈ insAmtAsc p l ↔ a = p ∨ a ∈ l := by
  induction l with
  | nil => simp [insAmtAsc]
  | cons q l ih =>
    simp only [insAmtAsc]
    by_cases h : p.2 ≤ q.2
    · rw [if_pos h]
      simp [List.mem_cons]
    · rw [if_neg h]
      simp [List.mem_cons, ih]
      tauto

theorem insAmtAsc_pairwise (p : String × ℚ) (l : List (String × ℚ))
    (hl : l.Pairwise (fun a b => a.2 ≤ b.2)) :
    (insAmtAsc p l).Pairwise (fun a b => a.2 ≤ b.2) := by
  induction l with
  | nil => simp [insAmtAsc]
  | cons q t ih =>
    rw [List.pairwise_cons] at hl
    obtain ⟨hq, ht⟩ := hl
    simp only [insAmtAsc]
    by_cases h : p.2 ≤ q.2
    · rw [if_pos h]
      refine List.Pairwise.cons ?_ (List.Pairwise.cons hq ht)
      intro b hb
      rcases List.mem_cons.mp hb with rfl | hb2
      · exact h
      · exact le_trans h (hq b hb2)
    · rw [if_neg h]
      refine List.Pairwise.cons ?_ (ih ht)
      intro b hb
      rcases (mem_insAmtAsc p b t).mp hb with rfl | hb2
      · exact le_of_lt (not_le.mp h)
      · exact hq b hb2

theorem sort_values_asc_pairwise (l : List (String × ℚ)) :
    (sort_values_asc l).Pairwise (fun a b => a.2 ≤ b.2) := by
  induction l with
  | nil => simp [sort_values_asc]
  | cons x t ih =>
    show (insAmtAsc x (sort_values_asc t)).Pairwise _
    exact insAmtAsc_pairwise x _ ih

/-- The idxmax fold over a key-ascending series yields the first maximum:
its value dominates the series and among equal values its key is least. -/
theorem idxmaxFold_spec (l : List (String × ℚ)) : ∀ best : String × ℚ,
    (∀ y ∈ l, best.1 < y.1) → l.Pairwise (fun a b => a.1 < b.1) →
    ∃ r, l.foldl (fun b y => if b.2 < y.2 then y else b) best = r
      ∧ (r = best ∨ r ∈ l) ∧ best.2 ≤ r.2 ∧ (∀ y ∈ l, y.2 ≤ r.2)
      ∧ (r.2 = best.2 → r = best) ∧ (∀ y ∈ l, y.2 = r.2 → r.1 ≤ y.1) := by
  induction l with
  | nil =>
    intro best _ _
    exact ⟨best, rfl, Or.inl rfl, le_refl _, by simp, fun _ => rfl, by simp⟩
  | cons y t ih =>
    intro best hasc hpair
    rw [List.pairwise_cons] at hpair
    obtain ⟨hy, hpt⟩ := hpair
    by_cases hc : best.2 < y.2
    · obtain ⟨r, hreq, hmem, hle, hall, htie, hfirst⟩ := ih y (fun z hz => hy z hz) hpt
      refine ⟨r, ?_, ?_, ?_, ?_, ?_, ?_⟩
      · rw [List.foldl_cons, if_pos hc]
        exact hreq
      · rcases hmem with rfl | hmem2
        · exact Or.inr (List.mem_cons_self _ _)
        · exact Or.inr (List.mem_cons_of_mem y hmem2)
      · exact le_trans (le_of_lt hc) hle
      · intro z hz
        rcases List.mem_cons.mp hz with rfl | hz2
        · exact hle
        · exact hall z hz2
      · intro hr2
        have : best.2 < r.2 := lt_of_lt_of_le hc hle
        exact absurd hr2 (ne_of_gt this)
      · intro z hz hz2
        rcases List.mem_cons.mp hz with rfl | hz2mem
        · exact le_of_eq (congrArg Prod.fst (htie hz2.symm))
        · exact hfirst z hz2mem hz2
    · have hyb : y.2 ≤ best.2 := le_of_not_lt hc
      obtain ⟨r, hreq, hmem, hle, hall, htie, hfirst⟩ :=
        ih best (fun z hz => hasc z (List.mem_cons_of_mem y hz)) hpt
      refine ⟨r, ?_, ?_, ?_, ?_, ?_, ?_⟩
      · rw [List.foldl_cons, if_neg hc]
        exact hreq
      · rcases hmem with rfl | hmem2
        · exact Or.inl rfl
        · exact Or.inr (List.mem_cons_of_mem y hmem2)
      · exact hle
      · intro z hz
        rcases List.mem_cons.mp hz with rfl | hz2
        · exact le_trans hyb hle
        · exact hall z hz2
      · exact htie
      · intro z hz hz2
        rcases List.mem_cons.mp hz with rfl | hz2mem
        · have hzr : r.2 = z.2 := hz2.symm
          have hrb : r.2 = best.2 := le_antisymm (hzr ▸ hyb) hle
          have hrbest : r = best := htie hrb
          have : best.1 < z.1 := hasc z (List.mem_cons_self _ _)
          rw [hrbest]
          exact le_of_lt this
        · exact hfirst z hz2mem hz2

/-- C7 counterexample: over a view whose first-encountered category B ties
with the later category A, the ranking the claim describes (ties broken by
first appearance) would put B first, but the code, whose grouped series is
key-sorted before nlargest and idxmax run, answers with A. -/
def top_n_claimed (key : Record → String) (view : List Record) (n : Nat) : List (String × ℚ) :=
  (sortDescAmt ((firstOccKeys (view.map key)).map
    (fun k => (k, sumAmount (view.filter (fun r => key r == k)))))).take n

/-- First record of the tie-breaking counterexample view. -/
def recTieB : Record := ⟨"2022-04-01", "2022-04", "B", "S1", "C1", "Shipped", 100, "o-1"⟩

/-- Second record of the tie-breaking counterexample view. -/
def recTieA : Record := ⟨"2022-04-02", "2022-04", "A", "S2", "C2", "Shipped", 100, "o-2"⟩

/-- A view with two equal-amount categories, B encountered first. -/
def tieView : List Record := [recTieB, recTieA]

theorem C7_counterexample :
    top_n_claimed (fun r => r.category) tieView 1 = [("B", (100 : ℚ))]
      ∧ nlargestAmt 1 (groupAmountSums (fun r => r.category) tieView) = [("A", (100 : ℚ))]
      ∧ analyze_data_view tieView "top category" [] [] []
          = mkBot ("🏆 Top category (by sales) in overall data: **A** (₹100.00).")
      ∧ ([("B", (100 : ℚ))] : List (String × ℚ)) ≠ [("A", (100 : ℚ))] :=
  ⟨by with_unfolding_all rfl, by with_unfolding_all rfl, by with_unfolding_all rfl,
   by with_unfolding_all decide⟩

/-- C7 (amended): the top-N ranking of the code returns at most n entries,
ordered by summed amount descending with ties broken by ascending group
key (not by first appearance in the view: pandas groupby sorts the group
keys first); the top-10 chart series is that ranking re-sorted ascending
for the horizontal bar charts; and the top category, city and state
answers pick, via idxmax over the key-sorted sums, a group of maximal
summed amount whose key is least among the tied maxima. -/
theorem C7_top_n_code_behavior (key : Record → String) (view : List Record) (n : Nat) :
    (nlargestAmt n (groupAmountSums key view)).length ≤ n
    ∧ (nlargestAmt n (groupAmountSums key view)).Pairwise rankLt
    ∧ (top10ChartSeries key view).Pairwise (fun a b => a.2 ≤ b.2)
    ∧ (view ≠ [] → ∃ p, seriesIdxmax (groupAmountSums key view) = some p
        ∧ p ∈ groupAmountSums key view
        ∧ ∀ q ∈ groupAmountSums key view, q.2 ≤ p.2 ∧ (q.2 = p.2 → p.1 ≤ q.1)) := by
  refine ⟨?_, ?_, ?_, ?_⟩
  · exact List.length_take_le n _
  · exact List.Pairwise.sublist (List.take_sublist n _)
      (sortDescAmt_pairwise _ (groupAmountSums_keyAsc key view))
  · exact sort_values_asc_pairwise _
  · intro hview
    have hne : groupAmountSums key view ≠ [] := groupAmountSums_ne_nil key view hview
    obtain ⟨p, rest, hcons⟩ : ∃ p rest, groupAmountSums key view = p :: rest := by
      cases h : groupAmountSums key view with
      | nil => exact absurd h hne
      | cons a tl => exact ⟨a, tl, rfl⟩
    have hpair := groupAmountSums_keyAsc key view
    rw [hcons, List.pairwise_cons] at hpair
    obtain ⟨r, hreq, hmem, hle, hall, htie, hfirst⟩ := idxmaxFold_spec rest p hpair.1 hpair.2
    refine ⟨r, ?_, ?_, ?_⟩
    · rw [hcons]
      show some _ = some r
      rw [hreq]
    · rw [hcons]
      rcases hmem with rfl | hmem2
      · exact List.mem_cons_self _ _
      · exact List.mem_cons_of_mem p hmem2
    · intro q hq
      rw [hcons] at hq
      rcases List.mem_cons.mp hq with rfl | hq2
      · exact ⟨hle, fun h2 => le_of_eq (congrArg Prod.fst (htie h2.symm))⟩
      · exact ⟨hall q hq2, fun h2 => hfirst q hq2 h2⟩

theorem C7_witness :
    tieView ≠ []
      ∧ ∃ p, seriesIdxmax (groupAmountSums (fun r => r.category) tieView) = some p
        ∧ p ∈ groupAmountSums (fun r => r.category) tieView
        ∧ ∀ q ∈ groupAmountSums (fun r => r.category) tieView,
            q.2 ≤ p.2 ∧ (q.2 = p.2 → p.1 ≤ q.1) :=
  ⟨by simp [tieView], (C7_top_n_code_behavior (fun r => r.category) tieView 1).2.2.2 (by simp [tieView])⟩
